import Mathlib

/-!
Verification development for the GitHub Actions workflow analyzer of the
InfinityXOneSystems automation repository.

The TypeScript sources are embedded shallowly:
- types.ts interfaces become Lean structures; TypeScript number fields that
  hold integers become Nat, the floating-point failureRate and the
  failure-rate threshold become rationals, nullable fields become Option.
- analyzer.ts (WorkflowAnalyzer) becomes pure functions; the GitHub API is
  abstracted as an environment of Except-valued fetch results, mirroring
  github-client.ts error handling.
- workflow-disabler.ts (WorkflowDisabler, AuditLogger) becomes explicit
  state passing over a SystemState holding the persisted manifest, the
  backup files written, and the audit log. File writes are modelled as
  always succeeding, so the catch branches of the source, which record a
  failed audit entry and continue, are unreachable in the model.
- Reason strings built by string interpolation in the source are modelled
  as an inductive DisableReason carrying the interpolated numbers, so the
  identity and multiplicity of reasons is preserved exactly.
- Timestamps are passed in explicitly as strings rather than read from a
  clock.
-/

deriving instance DecidableEq for Except

/-- Mirrors the Config interface of src/types.ts.  failureThreshold is an
integer, failureRateThreshold a percentage that is compared against the
rational failure rate. -/
structure Config where
  failureThreshold : Nat
  failureRateThreshold : ℚ
  timeWindowDays : Nat
  excludeRepositories : List String
  safelistWorkflows : List String
  dryRun : Bool
  githubToken : Option String
  organization : String
  maxConcurrentRequests : Nat
  backupDirectory : String
deriving DecidableEq

/-- Mirrors validateConfig of config.ts: reject a missing token (the
source tests JavaScript falsiness of the optional string, which covers an
absent and an empty token), an empty organization name, a failure
threshold below 1, a failure-rate threshold outside 0 to 100, and a time
window below 1 day, each with the message the source throws; accept
otherwise. -/
def validateConfig (config : Config) : Except String Unit :=
  if config.githubToken.getD "" = "" then
    Except.error "GitHub token is required. Set GITHUB_TOKEN environment variable or add it to config.json"
  else if config.organization = "" then
    Except.error "Organization name is required"
  else if config.failureThreshold < 1 then
    Except.error "Failure threshold must be at least 1"
  else if config.failureRateThreshold < 0 ∨ config.failureRateThreshold > 100 then
    Except.error "Failure rate threshold must be between 0 and 100"
  else if config.timeWindowDays < 1 then
    Except.error "Time window must be at least 1 day"
  else Except.ok ()

/-- Mirrors the WorkflowRun interface of src/types.ts.  status and
conclusion are nullable strings in the source. -/
structure WorkflowRun where
  id : Nat
  name : String
  status : Option String
  conclusion : Option String
  created_at : String
  updated_at : String
  run_number : Nat
  html_url : String
deriving DecidableEq

/-- Mirrors the WorkflowInfo interface of src/types.ts. -/
structure WorkflowInfo where
  name : String
  path : String
  state : String
  id : Nat
deriving DecidableEq

/-- The reason strings pushed onto disableReasons in
WorkflowAnalyzer.analyzeWorkflow, with the interpolated numbers carried as
fields: consecutiveFailuresReason for the string "N consecutive failures
(threshold: T)", failureRateReason for "R% failure rate (threshold: T%)",
and noSuccessfulRuns for "No successful runs". -/
inductive DisableReason where
  | consecutiveFailuresReason (count threshold : Nat)
  | failureRateReason (rate threshold : ℚ)
  | noSuccessfulRuns
deriving DecidableEq

/-- Mirrors the WorkflowAnalysis interface of src/types.ts. -/
structure WorkflowAnalysis where
  repository : String
  workflowName : String
  workflowPath : String
  workflowId : Nat
  totalRuns : Nat
  successfulRuns : Nat
  failedRuns : Nat
  failureRate : ℚ
  consecutiveFailures : Nat
  lastRuns : List WorkflowRun
  lastSuccessfulRun : Option WorkflowRun
  shouldDisable : Bool
  disableReason : List DisableReason
  issues : List String
deriving DecidableEq

/-- Mirrors the RepositoryAnalysis interface of src/types.ts. -/
structure RepositoryAnalysis where
  repository : String
  totalWorkflows : Nat
  failingWorkflows : Nat
  workflows : List WorkflowAnalysis
deriving DecidableEq

/-- Mirrors the summary field of the AnalysisReport interface. -/
structure ReportSummary where
  totalRuns : Nat
  successfulRuns : Nat
  failedRuns : Nat
deriving DecidableEq

/-- Mirrors the AnalysisReport interface of src/types.ts. -/
structure AnalysisReport where
  timestamp : String
  organization : String
  totalRepositories : Nat
  totalWorkflows : Nat
  failingWorkflows : Nat
  successRate : ℚ
  repositories : List RepositoryAnalysis
  summary : ReportSummary
deriving DecidableEq

/-- A run counts as failed when its conclusion is failure or timed_out,
as in the failedRuns filter and the consecutive-failure loop of
analyzer.ts. -/
def isFailedRun (r : WorkflowRun) : Bool :=
  r.conclusion == some "failure" || r.conclusion == some "timed_out"

/-- The consecutive-failure loop of WorkflowAnalyzer.analyzeWorkflow
(analyzer.ts lines 113 to 121): walk the most-recent-first run list,
increment on failure or timed_out, stop at the first success, and fall
through on any other conclusion. -/
def consecutiveFailuresCount : List WorkflowRun → Nat
  | [] => 0
  | r :: rs =>
    if isFailedRun r then consecutiveFailuresCount rs + 1
    else if r.conclusion == some "success" then 0
    else consecutiveFailuresCount rs

/-- The characterisation of the consecutive-failure count given by the
specification: the number of failed runs among the runs strictly before
the first success in the most-recent-first ordering. -/
def consecutiveFailuresSpec (runs : List WorkflowRun) : Nat :=
  ((runs.takeWhile (fun r => !(r.conclusion == some "success"))).filter isFailedRun).length

/-- Splitting a character list at every occurrence of a separator
character, the way the JavaScript split method with a one-character
separator behaves; always returns at least one (possibly empty) piece. -/
def splitOnChar (c : Char) : List Char → List (List Char)
  | [] => [[]]
  | x :: xs =>
    match splitOnChar c xs with
    | [] => [[]]
    | h :: t => if x = c then [] :: h :: t else (x :: h) :: t

/-- The file name of a workflow as computed in analyzer.ts line 132:
the last segment of the definition path after splitting on slashes, with
the empty string as fallback (the source writes path.split followed by
pop with an or-empty default). -/
def workflowFileName (path : String) : String :=
  String.mk ((splitOnChar '/' path.toList).getLastD [])

namespace WorkflowAnalyzer

/-- Mirrors WorkflowAnalyzer.analyzeWorkflow of analyzer.ts (lines 91 to
184) as a pure function of the fetched run history.  The issues argument
stands for the result of checkWorkflowIssues, whose YAML parsing is done
by the external js-yaml library and which never affects the disable
decision. -/
def analyzeWorkflow (cfg : Config) (repo : String) (workflow : WorkflowInfo)
    (runs : List WorkflowRun) (issues : List String) : WorkflowAnalysis :=
  let totalRuns := runs.length
  let successfulRuns := (runs.filter (fun r => r.conclusion == some "success")).length
  let failedRuns := (runs.filter isFailedRun).length
  let failureRate : ℚ := if totalRuns > 0 then (failedRuns : ℚ) / (totalRuns : ℚ) * 100 else 0
  let consecutiveFailures := consecutiveFailuresCount runs
  let lastSuccessfulRun := runs.find? (fun r => r.conclusion == some "success")
  let fileName := workflowFileName workflow.path
  let decision :=
    if cfg.safelistWorkflows.contains fileName then (false, ([] : List DisableReason))
    else
      let c1 := decide (consecutiveFailures ≥ cfg.failureThreshold ∧ totalRuns ≥ cfg.failureThreshold)
      let c2 := decide (failureRate ≥ cfg.failureRateThreshold ∧ totalRuns ≥ 5)
      let c3 := decide (totalRuns > 0 ∧ successfulRuns = 0)
      let reasons := (if c1 then [DisableReason.consecutiveFailuresReason consecutiveFailures cfg.failureThreshold] else [])
      let reasons := reasons ++ (if c2 then [DisableReason.failureRateReason failureRate cfg.failureRateThreshold] else [])
      let reasons := reasons ++ (if c3 then [DisableReason.noSuccessfulRuns] else [])
      (c1 || c2 || c3, reasons)
  { repository := repo
  , workflowName := workflow.name
  , workflowPath := workflow.path
  , workflowId := workflow.id
  , totalRuns := totalRuns
  , successfulRuns := successfulRuns
  , failedRuns := failedRuns
  , failureRate := failureRate
  , consecutiveFailures := consecutiveFailures
  , lastRuns := runs.take 10
  , lastSuccessfulRun := lastSuccessfulRun
  , shouldDisable := decision.1
  , disableReason := decision.2
  , issues := issues }

end WorkflowAnalyzer

/-- The consecutive-failure loop computes exactly the count described by
the specification: failed runs before the first success, with cancelled or
skipped runs passed over without incrementing, resetting, or stopping. -/
theorem consecutive_failures_matches_spec (runs : List WorkflowRun) :
    consecutiveFailuresCount runs = consecutiveFailuresSpec runs := by
  induction runs with
  | nil => rfl
  | cons r rs ih =>
    by_cases hf : isFailedRun r
    · have hs : (r.conclusion == some "success") = false := by
        rcases h : r.conclusion with _ | c
        · simp [isFailedRun, h] at hf
        · simp only [isFailedRun, h] at hf ⊢
          rcases Bool.or_eq_true_iff.mp hf with h1 | h1 <;>
            simp_all
      simp [consecutiveFailuresCount, consecutiveFailuresSpec, hf, hs,
        List.takeWhile, List.filter] at *
      omega
    · by_cases hs : (r.conclusion == some "success") = true
      · simp [consecutiveFailuresCount, consecutiveFailuresSpec, hf, hs,
          List.takeWhile]
      · simp only [Bool.not_eq_true] at hs
        simp [consecutiveFailuresCount, consecutiveFailuresSpec, hf, hs,
          List.takeWhile, List.filter] at *
        exact ih

/-- A workflow whose file name is on the safelist is never flagged: the
safelist branch of analyzer.ts lines 133 to 134 forces shouldDisable to
false without evaluating any threshold rule. -/
theorem safelisted_never_disabled (cfg : Config) (repo : String) (wf : WorkflowInfo)
    (runs : List WorkflowRun) (issues : List String)
    (h : cfg.safelistWorkflows.contains (workflowFileName wf.path) = true) :
    (WorkflowAnalyzer.analyzeWorkflow cfg repo wf runs issues).shouldDisable = false := by
  have h' : workflowFileName wf.path ∈ cfg.safelistWorkflows := by
    simpa using h
  simp [WorkflowAnalyzer.analyzeWorkflow, h']

/-- A failing run as delivered by the run-history fetch, used to build
concrete histories. -/
def mkFailRun (n : Nat) : WorkflowRun :=
  { id := n, name := "run", status := some "completed", conclusion := some "failure"
  , created_at := "2025-01-01", updated_at := "2025-01-01", run_number := n, html_url := "u" }

/-- Configuration used for the safelist witness: ci.yml is safelisted. -/
def cfgSafelist : Config :=
  { failureThreshold := 3, failureRateThreshold := 80, timeWindowDays := 7
  , excludeRepositories := [], safelistWorkflows := ["ci.yml"], dryRun := true
  , githubToken := none, organization := "org", maxConcurrentRequests := 5
  , backupDirectory := "backups" }

/-- A safelisted workflow descriptor with ten failing runs in its window. -/
def wfSafelisted : WorkflowInfo :=
  { name := "CI", path := ".github/workflows/ci.yml", state := "active", id := 7 }

theorem safelisted_never_disabled_witness :
    cfgSafelist.safelistWorkflows.contains (workflowFileName wfSafelisted.path) = true ∧
    (WorkflowAnalyzer.analyzeWorkflow cfgSafelist "repo" wfSafelisted
      ((List.range 10).map mkFailRun) []).shouldDisable = false :=
  ⟨by decide,
   safelisted_never_disabled cfgSafelist "repo" wfSafelisted
     ((List.range 10).map mkFailRun) [] (by decide)⟩

/-- A workflow with an empty run history in the window has zero failure
rate, zero consecutive failures, no last successful run, and is never
flagged, for every configuration that validateConfig accepts (which in
particular enforces a failure threshold of at least 1) and every
safelist. -/
theorem empty_history_not_flagged (cfg : Config) (repo : String) (wf : WorkflowInfo)
    (issues : List String) (h : validateConfig cfg = Except.ok ()) :
    (WorkflowAnalyzer.analyzeWorkflow cfg repo wf [] issues).failureRate = 0 ∧
    (WorkflowAnalyzer.analyzeWorkflow cfg repo wf [] issues).consecutiveFailures = 0 ∧
    (WorkflowAnalyzer.analyzeWorkflow cfg repo wf [] issues).lastSuccessfulRun = none ∧
    (WorkflowAnalyzer.analyzeWorkflow cfg repo wf [] issues).shouldDisable = false := by
  have ht : ¬ (cfg.failureThreshold ≤ 0) := by
    intro hle
    have hlt : cfg.failureThreshold < 1 := by omega
    unfold validateConfig at h
    split_ifs at h
  by_cases hc : cfg.safelistWorkflows.contains (workflowFileName wf.path) <;>
    refine ⟨?_, ?_, ?_, ?_⟩ <;>
      simp [WorkflowAnalyzer.analyzeWorkflow, consecutiveFailuresCount, hc, ht]

/-- Configuration for the empty-history witness; it passes
validateConfig. -/
def cfgEmptyHist : Config :=
  { failureThreshold := 3, failureRateThreshold := 80, timeWindowDays := 7
  , excludeRepositories := [], safelistWorkflows := [], dryRun := true
  , githubToken := some "token", organization := "org"
  , maxConcurrentRequests := 5, backupDirectory := "backups" }

/-- Workflow descriptor for the empty-history witness. -/
def wfEmptyHist : WorkflowInfo :=
  { name := "Build", path := ".github/workflows/build.yml", state := "active", id := 9 }

theorem empty_history_not_flagged_witness :
    (WorkflowAnalyzer.analyzeWorkflow cfgEmptyHist "repo" wfEmptyHist [] []).failureRate = 0 ∧
    (WorkflowAnalyzer.analyzeWorkflow cfgEmptyHist "repo" wfEmptyHist [] []).consecutiveFailures = 0 ∧
    (WorkflowAnalyzer.analyzeWorkflow cfgEmptyHist "repo" wfEmptyHist [] []).lastSuccessfulRun = none ∧
    (WorkflowAnalyzer.analyzeWorkflow cfgEmptyHist "repo" wfEmptyHist [] []).shouldDisable = false :=
  empty_history_not_flagged cfgEmptyHist "repo" wfEmptyHist [] (by decide)

/-- Configuration for the four-failure concrete scenario: threshold 3,
rate threshold 80, no safelist. -/
def cfgFourFailures : Config :=
  { failureThreshold := 3, failureRateThreshold := 80, timeWindowDays := 7
  , excludeRepositories := [], safelistWorkflows := [], dryRun := true
  , githubToken := none, organization := "org", maxConcurrentRequests := 5
  , backupDirectory := "backups" }

/-- Workflow descriptor for the four-failure concrete scenario. -/
def wfFourFailures : WorkflowInfo :=
  { name := "Nightly", path := ".github/workflows/nightly.yml", state := "active", id := 4 }

/-- Four runs, all failures, most recent first. -/
def runsFourFailures : List WorkflowRun :=
  [mkFailRun 4, mkFailRun 3, mkFailRun 2, mkFailRun 1]

/-- With four runs all failures, threshold 3 and rate threshold 80, the
classifier flags the workflow, but the reasons list has two entries, not
one: rule 4 of the decision algorithm also fires because there are runs
and none succeeded.  This refutes the stated claim that exactly one
reason, the consecutive-failures reason, is present. -/
theorem four_failures_not_single_reason :
    (WorkflowAnalyzer.analyzeWorkflow cfgFourFailures "repo" wfFourFailures
      runsFourFailures []).shouldDisable = true ∧
    (WorkflowAnalyzer.analyzeWorkflow cfgFourFailures "repo" wfFourFailures
      runsFourFailures []).disableReason.length ≠ 1 := by
  refine ⟨?_, ?_⟩ <;>
    simp [WorkflowAnalyzer.analyzeWorkflow, cfgFourFailures, wfFourFailures,
      runsFourFailures, mkFailRun, consecutiveFailuresCount, isFailedRun, Bool.decide_and]

/-- With four runs all failures, threshold 3 and rate threshold 80, the
classifier returns disable true with exactly two reasons in order: the
consecutive-failures reason (4 consecutive, threshold 3) and the
no-successful-runs reason; the rate-based reason is absent because the
total of 4 runs is below the fixed minimum sample size of 5. -/
theorem four_failures_two_reasons :
    (WorkflowAnalyzer.analyzeWorkflow cfgFourFailures "repo" wfFourFailures
      runsFourFailures []).shouldDisable = true ∧
    (WorkflowAnalyzer.analyzeWorkflow cfgFourFailures "repo" wfFourFailures
      runsFourFailures []).disableReason =
      [DisableReason.consecutiveFailuresReason 4 3, DisableReason.noSuccessfulRuns] := by
  refine ⟨?_, ?_⟩ <;>
    simp [WorkflowAnalyzer.analyzeWorkflow, cfgFourFailures, wfFourFailures,
      runsFourFailures, mkFailRun, consecutiveFailuresCount, isFailedRun, Bool.decide_and]

/-- Mirrors the DisabledWorkflow interface of src/types.ts. -/
structure DisabledWorkflow where
  repository : String
  workflowName : String
  originalPath : String
  disabledPath : String
  backupPath : String
  disabledAt : String
  reason : List DisableReason
  analysis : WorkflowAnalysis
deriving DecidableEq

/-- Mirrors the DisabledWorkflowsManifest interface of src/types.ts. -/
structure DisabledWorkflowsManifest where
  timestamp : String
  disabledWorkflows : List DisabledWorkflow
deriving DecidableEq

/-- The four audit action kinds of the AuditLogEntry interface. -/
inductive AuditAction where
  | analyzeAction
  | disableAction
  | restoreAction
  | backupAction
deriving DecidableEq

/-- Mirrors the AuditLogEntry interface of src/types.ts; the free-form
details map and the timestamp are not modelled, since no claim inspects
them. -/
structure AuditLogEntry where
  action : AuditAction
  repository : Option String
  workflow : Option String
  success : Bool
  error : Option String
deriving DecidableEq

/-- The persistent state the lifecycle manager reads and writes: the
manifest file, the backup files (path and content), and the audit log
entries appended by AuditLogger.addEntry.  File writes are modelled as
always succeeding. -/
structure SystemState where
  manifest : DisabledWorkflowsManifest
  backups : List (String × WorkflowAnalysis)
  audit : List AuditLogEntry
deriving DecidableEq

/-- The timestamp sanitisation of workflow-disabler.ts line 147: every
colon and dot replaced by a dash. -/
def sanitizeTimestamp (ts : String) : String :=
  String.mk (ts.toList.map (fun c => if c = ':' || c = '.' then '-' else c))

/-- The basename of a path, as used for the backup file name
(workflow-disabler.ts line 150). -/
def pathBasename (p : String) : String :=
  String.mk ((splitOnChar '/' p.toList).getLastD [])

namespace WorkflowDisabler

/-- The DisabledWorkflow record constructed by
WorkflowDisabler.disableWorkflow (workflow-disabler.ts lines 145 to 162),
as a pure function of the repository, the flagged analysis, and the
current time. -/
def disableRecord (cfg : Config) (repo : String) (w : WorkflowAnalysis)
    (now : String) : DisabledWorkflow :=
  { repository := repo
  , workflowName := w.workflowName
  , originalPath := w.workflowPath
  , disabledPath := w.workflowPath ++ ".disabled"
  , backupPath := cfg.backupDirectory ++ "/" ++ repo ++ "_" ++
      pathBasename w.workflowPath ++ "_" ++ sanitizeTimestamp now
  , disabledAt := now
  , reason := w.disableReason
  , analysis := w }

/-- The state effects of WorkflowDisabler.disableWorkflow (lines 137 to
184): when not a dry run, write the backup file and append the backup
audit entry; a dry run touches nothing. -/
def disableWorkflow (cfg : Config) (repo : String) (w : WorkflowAnalysis)
    (dryRun : Bool) (now : String) (s : SystemState) :
    SystemState × DisabledWorkflow :=
  let d := disableRecord cfg repo w now
  (if dryRun then s
   else
     { s with
         backups := s.backups ++ [(d.backupPath, w)]
       , audit := s.audit ++
           [{ action := AuditAction.backupAction, repository := some repo
            , workflow := some w.workflowName, success := true, error := none }] }, d)

/-- The audit entry appended after a successful non-dry-run disable of one
workflow (workflow-disabler.ts lines 89 to 100). -/
def disableAuditEntry (repo : String) (w : WorkflowAnalysis) : AuditLogEntry :=
  { action := AuditAction.disableAction, repository := some repo
  , workflow := some w.workflowName, success := true, error := none }

/-- The flagged workflows of a report, paired with their repository, in
the order the nested loops of disableWorkflows visit them. -/
def flaggedPairs (report : AnalysisReport) : List (String × WorkflowAnalysis) :=
  report.repositories.flatMap
    (fun ra => (ra.workflows.filter (fun w => w.shouldDisable)).map
      (fun w => (ra.repository, w)))

/-- The inner loop of WorkflowDisabler.disableWorkflows (lines 69 to 118)
over the flagged workflows: disable each one and, when not a dry run,
append the disable audit entry; returns the final state and the collected
records.  The catch branch of the source handles a failed file write and
is unreachable here because writes always succeed in the model. -/
def disableLoop (cfg : Config) (dryRun : Bool) (now : String) :
    List (String × WorkflowAnalysis) → SystemState →
    SystemState × List DisabledWorkflow
  | [], s => (s, [])
  | (repo, w) :: rest, s =>
    let r1 := disableWorkflow cfg repo w dryRun now s
    let s2 := if dryRun then r1.1
      else { r1.1 with audit := r1.1.audit ++ [disableAuditEntry repo w] }
    let r2 := disableLoop cfg dryRun now rest s2
    (r2.1, r1.2 :: r2.2)

/-- Mirrors WorkflowDisabler.disableWorkflows (workflow-disabler.ts lines
55 to 135): process every flagged workflow of the report, build the
manifest from the collected records with a fresh timestamp, and, when not
a dry run, persist it over the previous manifest; returns the new state
and the manifest the method returns to its caller. -/
def disableWorkflows (cfg : Config) (report : AnalysisReport) (dryRun : Bool)
    (now : String) (s : SystemState) :
    SystemState × DisabledWorkflowsManifest :=
  let r := disableLoop cfg dryRun now (flaggedPairs report) s
  let manifest : DisabledWorkflowsManifest :=
    { timestamp := now, disabledWorkflows := r.2 }
  if dryRun then (r.1, manifest)
  else ({ r.1 with manifest := manifest }, manifest)

end WorkflowDisabler

/-- Whether the needle occurs as a contiguous substring of the haystack,
the way the JavaScript includes method on strings behaves; used by the
workflow-name filter of restoreWorkflows. -/
def substringOf (needle hay : String) : Bool :=
  hay.toList.tails.any (fun t => needle.toList.isPrefixOf t)

/-- Mirrors the options record of WorkflowDisabler.restoreWorkflows
(workflow-disabler.ts lines 188 to 193), with the dry-run default already
resolved by the caller. -/
structure RestoreOptions where
  repo : Option String
  workflow : Option String
  all : Bool
  dryRun : Bool
deriving DecidableEq

namespace WorkflowDisabler

/-- The candidate set of restoreWorkflows (lines 209 to 223): start from
every record of the manifest, keep records of the given repository when a
repository filter is present, then keep records whose original path
contains the workflow filter as a substring when one is present. -/
def restoreCandidates (m : DisabledWorkflowsManifest)
    (repoF wfF : Option String) : List DisabledWorkflow :=
  let l := m.disabledWorkflows
  let l := match repoF with
    | some r => l.filter (fun w => w.repository == r)
    | none => l
  match wfF with
  | some wf => l.filter (fun w => substringOf wf w.originalPath)
  | none => l

/-- The audit entry appended after a successful non-dry-run restore of one
workflow (workflow-disabler.ts lines 237 to 246). -/
def restoreAuditEntry (w : DisabledWorkflow) : AuditLogEntry :=
  { action := AuditAction.restoreAction, repository := some w.repository
  , workflow := some w.workflowName, success := true, error := none }

/-- Mirrors WorkflowDisabler.restoreWorkflows (workflow-disabler.ts lines
186 to 279): compute the candidate set from the persisted manifest and the
filters, no-op when it is empty, otherwise append a restore audit entry
per candidate when not a dry run and persist the manifest with the
candidates removed (removal is by membership in the candidate list, which
the source expresses through array includes).  The per-candidate
restoreWorkflow helper of the source is a no-op, so its catch branch is
unreachable. -/
def restoreWorkflows (opts : RestoreOptions) (s : SystemState) : SystemState :=
  let toRestore := restoreCandidates s.manifest opts.repo opts.workflow
  if toRestore.isEmpty then s
  else
    let s1 := if opts.dryRun then s
      else { s with audit := s.audit ++ toRestore.map restoreAuditEntry }
    if !opts.dryRun && toRestore.length > 0 then
      let remaining := s1.manifest.disabledWorkflows.filter (fun w => !(toRestore.contains w))
      { s1 with manifest := { s1.manifest with disabledWorkflows := remaining } }
    else s1

/-- Helper: the records collected by disableLoop are exactly the
disableRecord of each visited pair, independent of the starting state. -/
theorem disableLoop_records (cfg : Config) (dryRun : Bool) (now : String)
    (l : List (String × WorkflowAnalysis)) (s : SystemState) :
    (disableLoop cfg dryRun now l s).2 =
      l.map (fun p => disableRecord cfg p.1 p.2 now) := by
  induction l generalizing s with
  | nil => rfl
  | cons p rest ih =>
    obtain ⟨repo, w⟩ := p
    simp [disableLoop, disableWorkflow, ih]

/-- Helper: a dry-run disable loop leaves the state untouched. -/
theorem disableLoop_dryRun (cfg : Config) (now : String)
    (l : List (String × WorkflowAnalysis)) (s : SystemState) :
    (disableLoop cfg true now l s).1 = s := by
  induction l generalizing s with
  | nil => rfl
  | cons p rest ih =>
    obtain ⟨repo, w⟩ := p
    simp [disableLoop, disableWorkflow, ih]

end WorkflowDisabler

/-- After every non-dry-run disable transition the persisted manifest is
exactly the freshly built manifest: its records are the disableRecord of
every flagged workflow of the input report, in visit order, and nothing
else.  The starting state is arbitrary and absent from the right-hand
side, so whatever manifest was persisted before, including records created
by earlier disable transitions for workflows not flagged now, is
overwritten wholesale. -/
theorem disable_overwrites_manifest (cfg : Config) (report : AnalysisReport)
    (now : String) (s : SystemState) :
    ((WorkflowDisabler.disableWorkflows cfg report false now s).1).manifest =
      { timestamp := now
      , disabledWorkflows := (WorkflowDisabler.flaggedPairs report).map
          (fun p => WorkflowDisabler.disableRecord cfg p.1 p.2 now) } := by
  simp [WorkflowDisabler.disableWorkflows, WorkflowDisabler.disableLoop_records]

/-- Dry-run invariance: a dry-run disable and a dry-run restore both leave
the whole persistent state untouched, in particular the manifest, the
backup files, and the audit log. -/
theorem dry_run_invariance (cfg : Config) (report : AnalysisReport)
    (now : String) (s : SystemState) (repoF wfF : Option String) (allF : Bool) :
    (WorkflowDisabler.disableWorkflows cfg report true now s).1 = s ∧
    WorkflowDisabler.restoreWorkflows
      { repo := repoF, workflow := wfF, all := allF, dryRun := true } s = s := by
  constructor
  · simp [WorkflowDisabler.disableWorkflows, WorkflowDisabler.disableLoop_dryRun]
  · simp only [WorkflowDisabler.restoreWorkflows]
    split
    · rfl
    · simp

/-- The all flag of the restore transition is dead: restoreWorkflows never
reads it, so for every state, filter combination and dry-run setting the
resulting state is identical with the flag set or cleared; and when
neither filter is present the candidate set is the full record list of the
manifest. -/
theorem restore_all_flag_no_effect (m : DisabledWorkflowsManifest)
    (s : SystemState) (repoF wfF : Option String) (d : Bool) :
    WorkflowDisabler.restoreWorkflows
        { repo := repoF, workflow := wfF, all := true, dryRun := d } s =
      WorkflowDisabler.restoreWorkflows
        { repo := repoF, workflow := wfF, all := false, dryRun := d } s ∧
    WorkflowDisabler.restoreCandidates m none none = m.disabledWorkflows := by
  exact ⟨rfl, rfl⟩

namespace WorkflowDisabler

/-- The combined predicate the two successive restore filters implement:
the workflow-name filter by substring on the original path, and the
repository filter by equality. -/
def candMatches (repoF wfF : Option String) (w : DisabledWorkflow) : Bool :=
  (match wfF with | some f => substringOf f w.originalPath | none => true) &&
  (match repoF with | some r => w.repository == r | none => true)

/-- Helper: the two successive filters of restoreCandidates amount to one
filter by the combined predicate. -/
theorem restoreCandidates_eq_filter (m : DisabledWorkflowsManifest)
    (repoF wfF : Option String) :
    restoreCandidates m repoF wfF =
      m.disabledWorkflows.filter (fun w => candMatches repoF wfF w) := by
  cases repoF <;> cases wfF <;>
    simp [restoreCandidates, candMatches, List.filter_filter]

end WorkflowDisabler

/-- Configuration for the round-trip scenario. -/
def cfgRoundTrip : Config :=
  { failureThreshold := 3, failureRateThreshold := 80, timeWindowDays := 7
  , excludeRepositories := [], safelistWorkflows := [], dryRun := false
  , githubToken := none, organization := "org", maxConcurrentRequests := 5
  , backupDirectory := "backups" }

/-- A flagged analysis for workflow wfX of repoX, as a report would carry
it. -/
def wfXAnalysis : WorkflowAnalysis :=
  { repository := "repoX", workflowName := "wfX", workflowPath := "x/wf.yml"
  , workflowId := 1, totalRuns := 6, successfulRuns := 0, failedRuns := 6
  , failureRate := 100, consecutiveFailures := 6, lastRuns := []
  , lastSuccessfulRun := none, shouldDisable := true
  , disableReason := [DisableReason.noSuccessfulRuns], issues := [] }

/-- A flagged analysis for workflow wfY of repoY, used only to populate
the manifest persisted before the disable under test. -/
def wfYAnalysis : WorkflowAnalysis :=
  { repository := "repoY", workflowName := "wfY", workflowPath := "y/wf.yml"
  , workflowId := 2, totalRuns := 5, successfulRuns := 0, failedRuns := 5
  , failureRate := 100, consecutiveFailures := 5, lastRuns := []
  , lastSuccessfulRun := none, shouldDisable := true
  , disableReason := [DisableReason.noSuccessfulRuns], issues := [] }

/-- A report that flags exactly one workflow, wfX of repoX. -/
def reportRoundTrip : AnalysisReport :=
  { timestamp := "t0", organization := "org", totalRepositories := 1
  , totalWorkflows := 1, failingWorkflows := 1, successRate := 0
  , repositories :=
      [{ repository := "repoX", totalWorkflows := 1, failingWorkflows := 1
       , workflows := [wfXAnalysis] }]
  , summary := { totalRuns := 6, successfulRuns := 0, failedRuns := 6 } }

/-- A record for wfY of repoY created by an earlier disable transition. -/
def recYRoundTrip : DisabledWorkflow :=
  WorkflowDisabler.disableRecord cfgRoundTrip "repoY" wfYAnalysis "t-earlier"

/-- The state persisted before the disable under test: the manifest still
holds the record of the earlier transition for repoY. -/
def stateBeforeRoundTrip : SystemState :=
  { manifest := { timestamp := "t-earlier", disabledWorkflows := [recYRoundTrip] }
  , backups := [], audit := [] }

/-- The record the disable under test creates for wfX of repoX. -/
def recXRoundTrip : DisabledWorkflow :=
  WorkflowDisabler.disableRecord cfgRoundTrip "repoX" wfXAnalysis "t1"

/-- Counterexample to the stated round trip: starting from a manifest
holding the earlier record for repoY, a non-dry-run disable of the report
flagging only wfX of repoX followed by a non-dry-run restore filtered to
exactly that workflow leaves an empty manifest, while the manifest before
the disable held one record; the two differ even modulo timestamps,
because the disable overwrote the prior manifest wholesale. -/
theorem round_trip_loses_prior_records :
    (WorkflowDisabler.restoreWorkflows
        { repo := some "repoX", workflow := some "x/wf.yml", all := false, dryRun := false }
        ((WorkflowDisabler.disableWorkflows cfgRoundTrip reportRoundTrip false "t1"
            stateBeforeRoundTrip).1)).manifest.disabledWorkflows = [] ∧
    stateBeforeRoundTrip.manifest.disabledWorkflows = [recYRoundTrip] := by
  constructor
  · decide
  · rfl

/-- Amended round trip: for a workflow flagged in the report, the
non-dry-run disable persists a manifest containing its record exactly
once; when the restore filters select exactly that record, the subsequent
non-dry-run restore removes exactly that record and no others, keeping the
manifest timestamp; the manifest after the restore is the manifest
persisted by the disable minus that record, not the manifest persisted
before the disable, which the disable overwrote. -/
theorem disable_restore_round_trip
    (cfg : Config) (report : AnalysisReport) (now : String)
    (s s1 : SystemState) (repoF wfF : Option String) (allF : Bool)
    (ra : RepositoryAnalysis) (w : WorkflowAnalysis)
    (hra : ra ∈ report.repositories) (hw : w ∈ ra.workflows)
    (hsd : w.shouldDisable = true)
    (hs1 : (WorkflowDisabler.disableWorkflows cfg report false now s).1 = s1)
    (hc : WorkflowDisabler.restoreCandidates s1.manifest repoF wfF =
      [WorkflowDisabler.disableRecord cfg ra.repository w now]) :
    WorkflowDisabler.disableRecord cfg ra.repository w now ∈
      s1.manifest.disabledWorkflows ∧
    s1.manifest.disabledWorkflows.count
      (WorkflowDisabler.disableRecord cfg ra.repository w now) = 1 ∧
    (WorkflowDisabler.restoreWorkflows
        { repo := repoF, workflow := wfF, all := allF, dryRun := false }
        s1).manifest.disabledWorkflows =
      s1.manifest.disabledWorkflows.filter
        (fun x => !(x == WorkflowDisabler.disableRecord cfg ra.repository w now)) ∧
    (WorkflowDisabler.restoreWorkflows
        { repo := repoF, workflow := wfF, all := allF, dryRun := false }
        s1).manifest.timestamp = s1.manifest.timestamp := by
  have hm : s1.manifest.disabledWorkflows =
      (WorkflowDisabler.flaggedPairs report).map
        (fun p => WorkflowDisabler.disableRecord cfg p.1 p.2 now) := by
    rw [← hs1]
    simp [WorkflowDisabler.disableWorkflows, WorkflowDisabler.disableLoop_records]
  have hpair : (ra.repository, w) ∈ WorkflowDisabler.flaggedPairs report := by
    refine List.mem_flatMap.mpr ⟨ra, hra, ?_⟩
    exact List.mem_map.mpr ⟨w, List.mem_filter.mpr ⟨hw, hsd⟩, rfl⟩
  have hmem : WorkflowDisabler.disableRecord cfg ra.repository w now ∈
      s1.manifest.disabledWorkflows := by
    rw [hm]
    exact List.mem_map.mpr ⟨(ra.repository, w), hpair, rfl⟩
  have hfil : s1.manifest.disabledWorkflows.filter
      (fun x => WorkflowDisabler.candMatches repoF wfF x) =
      [WorkflowDisabler.disableRecord cfg ra.repository w now] := by
    rw [← WorkflowDisabler.restoreCandidates_eq_filter]
    exact hc
  have hpd : WorkflowDisabler.candMatches repoF wfF
      (WorkflowDisabler.disableRecord cfg ra.repository w now) = true := by
    have : WorkflowDisabler.disableRecord cfg ra.repository w now ∈
        s1.manifest.disabledWorkflows.filter
          (fun x => WorkflowDisabler.candMatches repoF wfF x) := by
      rw [hfil]; exact List.mem_singleton_self _
    exact (List.mem_filter.mp this).2
  have hcount : s1.manifest.disabledWorkflows.count
      (WorkflowDisabler.disableRecord cfg ra.repository w now) = 1 := by
    rw [← List.count_filter hpd, hfil]
    simp
  refine ⟨hmem, hcount, ?_, ?_⟩
  · simp only [WorkflowDisabler.restoreWorkflows, hc]
    simp
    refine List.filter_congr (fun x _ => ?_)
    by_cases hx : x = WorkflowDisabler.disableRecord cfg ra.repository w now <;>
      simp [hx]
  · simp only [WorkflowDisabler.restoreWorkflows, hc]
    simp

/-- The repository analysis carrying the flagged workflow of the
round-trip scenario. -/
def raRoundTrip : RepositoryAnalysis :=
  { repository := "repoX", totalWorkflows := 1, failingWorkflows := 1
  , workflows := [wfXAnalysis] }

/-- The state after the non-dry-run disable of the round-trip scenario. -/
def stateAfterDisableRT : SystemState :=
  (WorkflowDisabler.disableWorkflows cfgRoundTrip reportRoundTrip false "t1"
    stateBeforeRoundTrip).1

theorem disable_restore_round_trip_witness :
    recXRoundTrip ∈ stateAfterDisableRT.manifest.disabledWorkflows ∧
    stateAfterDisableRT.manifest.disabledWorkflows.count recXRoundTrip = 1 ∧
    (WorkflowDisabler.restoreWorkflows
        { repo := some "repoX", workflow := some "x/wf.yml", all := false, dryRun := false }
        stateAfterDisableRT).manifest.disabledWorkflows =
      stateAfterDisableRT.manifest.disabledWorkflows.filter
        (fun x => !(x == recXRoundTrip)) ∧
    (WorkflowDisabler.restoreWorkflows
        { repo := some "repoX", workflow := some "x/wf.yml", all := false, dryRun := false }
        stateAfterDisableRT).manifest.timestamp = stateAfterDisableRT.manifest.timestamp :=
  disable_restore_round_trip cfgRoundTrip reportRoundTrip "t1" stateBeforeRoundTrip
    stateAfterDisableRT (some "repoX") (some "x/wf.yml") false raRoundTrip wfXAnalysis
    (by decide) (by decide) (by decide) rfl (by decide)

/-- The GitHub data source as seen through github-client.ts, abstracted as
an environment of fetch outcomes: the organization repository enumeration,
the per-repository workflow list, the per-workflow run history restricted
to the configured time window, and the advisory issues computed by
checkWorkflowIssues (whose YAML parsing is done by the external js-yaml
library). -/
structure GhEnv where
  repos : Except String (List String)
  workflows : String → Except String (List WorkflowInfo)
  runs : String → Nat → Except String (List WorkflowRun)
  issues : String → String → List String

namespace GitHubClient

/-- Mirrors GitHubClient.getWorkflows (github-client.ts lines 61 to 82):
a 404 returns an empty list, and any other fetch error is logged and also
degrades to an empty list; the method never propagates an error. -/
def getWorkflows (res : Except String (List WorkflowInfo)) : List WorkflowInfo :=
  match res with
  | Except.ok ws => ws
  | Except.error _ => []

/-- Mirrors GitHubClient.getWorkflowRuns (github-client.ts lines 84 to
115): any fetch error is logged and degrades to an empty run list. -/
def getWorkflowRuns (res : Except String (List WorkflowRun)) : List WorkflowRun :=
  match res with
  | Except.ok rs => rs
  | Except.error _ => []

/-- Mirrors GitHubClient.getOrganizationRepositories (github-client.ts
lines 18 to 59): an enumeration failure propagates (a 404 is rethrown with
a descriptive message, other errors are rethrown as they are; the model
keeps the message abstract), and on success the excluded repositories are
filtered out. -/
def getOrganizationRepositories (res : Except String (List String))
    (cfg : Config) : Except String (List String) :=
  match res with
  | Except.error e => Except.error e
  | Except.ok repos =>
      Except.ok (repos.filter (fun r => !(cfg.excludeRepositories.contains r)))

end GitHubClient

namespace WorkflowAnalyzer

/-- analyzeWorkflow driven by the environment: the run history comes from
getWorkflowRuns on the corresponding fetch outcome (analyzer.ts line
100). -/
def analyzeWorkflowEnv (env : GhEnv) (cfg : Config) (repo : String)
    (wf : WorkflowInfo) : WorkflowAnalysis :=
  analyzeWorkflow cfg repo wf
    (GitHubClient.getWorkflowRuns (env.runs repo wf.id))
    (env.issues repo wf.path)

/-- Mirrors WorkflowAnalyzer.analyzeRepository (analyzer.ts lines 72 to
89): analyze every workflow of the repository and count the flagged
ones. -/
def analyzeRepository (env : GhEnv) (cfg : Config) (repo : String) :
    RepositoryAnalysis :=
  let workflows := GitHubClient.getWorkflows (env.workflows repo)
  let analyses := workflows.map (analyzeWorkflowEnv env cfg repo)
  { repository := repo
  , totalWorkflows := workflows.length
  , failingWorkflows := (analyses.filter (fun w => w.shouldDisable)).length
  , workflows := analyses }

/-- Rounding a rational to two decimal places, modelling the toFixed and
parseFloat pair of analyzer.ts lines 50 to 51. -/
def roundTwo (q : ℚ) : ℚ := (round (q * 100) : ℤ) / 100

/-- Mirrors WorkflowAnalyzer.analyze (analyzer.ts lines 19 to 70):
enumerate the repositories (a failure there aborts the pass), analyze each
one, keep only repository analyses with at least one workflow, and
aggregate the totals over the kept repositories exactly as the source
accumulates them inside its length-guarded branch. -/
def analyze (env : GhEnv) (cfg : Config) (now : String) :
    Except String AnalysisReport :=
  match GitHubClient.getOrganizationRepositories env.repos cfg with
  | Except.error e => Except.error e
  | Except.ok repositories =>
    let repositoryAnalyses :=
      (repositories.map (analyzeRepository env cfg)).filter
        (fun ra => ra.workflows.length > 0)
    let totalWorkflows : Nat := (repositoryAnalyses.map (fun ra => ra.totalWorkflows)).sum
    let failingWorkflows : Nat := (repositoryAnalyses.map (fun ra => ra.failingWorkflows)).sum
    let totalRuns : Nat :=
      (repositoryAnalyses.map (fun ra => (ra.workflows.map (fun w => w.totalRuns)).sum)).sum
    let successfulRuns : Nat :=
      (repositoryAnalyses.map (fun ra => (ra.workflows.map (fun w => w.successfulRuns)).sum)).sum
    let failedRuns : Nat :=
      (repositoryAnalyses.map (fun ra => (ra.workflows.map (fun w => w.failedRuns)).sum)).sum
    let successRate : ℚ :=
      if totalRuns > 0 then roundTwo ((successfulRuns : ℚ) / (totalRuns : ℚ) * 100) else 0
    Except.ok
      { timestamp := now
      , organization := cfg.organization
      , totalRepositories := repositoryAnalyses.length
      , totalWorkflows := totalWorkflows
      , failingWorkflows := failingWorkflows
      , successRate := successRate
      , repositories := repositoryAnalyses
      , summary := { totalRuns := totalRuns, successfulRuns := successfulRuns
                   , failedRuns := failedRuns } }

end WorkflowAnalyzer

/-- A repository whose workflow list comes back empty, whether because the
data source reports zero workflows or because the fetch failed, never
appears in the report repository list, and the total-repositories count of
the report equals the length of that list. -/
theorem zero_workflow_repos_absent (env : GhEnv) (cfg : Config) (now : String)
    (rep : AnalysisReport)
    (h : WorkflowAnalyzer.analyze env cfg now = Except.ok rep) :
    (∀ r, GitHubClient.getWorkflows (env.workflows r) = [] →
      ∀ ra ∈ rep.repositories, ra.repository ≠ r) ∧
    rep.totalRepositories = rep.repositories.length := by
  unfold WorkflowAnalyzer.analyze at h
  cases henum : GitHubClient.getOrganizationRepositories env.repos cfg with
  | error e => rw [henum] at h; exact absurd h (by simp)
  | ok repos =>
    rw [henum] at h
    simp only [Except.ok.injEq] at h
    subst h
    refine ⟨?_, rfl⟩
    intro r hr ra hra hrepo
    have hmem := List.mem_filter.mp hra
    obtain ⟨r', hr', hra'⟩ := List.mem_map.mp hmem.1
    have hrep : ra.repository = r' := by
      rw [← hra']
      rfl
    have hlen := hmem.2
    rw [← hra'] at hlen
    rw [hrepo] at hrep
    subst hrep
    simp [WorkflowAnalyzer.analyzeRepository, hr] at hlen

/-- Error handling of the analysis pass: a failed run-history fetch makes
that workflow analyze as if it had zero runs; a failed workflow-list fetch
makes that repository analyze as zero workflows (so the length-guarded
filter of the pass drops it from the report); an organization enumeration
failure aborts the whole pass with the error; and whenever the enumeration
succeeds the pass produces a report, whatever the per-unit fetches do. -/
theorem fetch_error_handling :
    (∀ (env : GhEnv) (cfg : Config) (repo : String) (wf : WorkflowInfo) (e : String),
      env.runs repo wf.id = Except.error e →
      WorkflowAnalyzer.analyzeWorkflowEnv env cfg repo wf =
        WorkflowAnalyzer.analyzeWorkflow cfg repo wf [] (env.issues repo wf.path)) ∧
    (∀ (env : GhEnv) (cfg : Config) (repo : String) (e : String),
      env.workflows repo = Except.error e →
      WorkflowAnalyzer.analyzeRepository env cfg repo =
        { repository := repo, totalWorkflows := 0, failingWorkflows := 0
        , workflows := [] }) ∧
    (∀ (env : GhEnv) (cfg : Config) (now : String) (e : String),
      env.repos = Except.error e →
      WorkflowAnalyzer.analyze env cfg now = Except.error e) ∧
    (∀ (env : GhEnv) (cfg : Config) (now : String) (l : List String),
      env.repos = Except.ok l →
      ∃ rep, WorkflowAnalyzer.analyze env cfg now = Except.ok rep) := by
  refine ⟨?_, ?_, ?_, ?_⟩
  · intro env cfg repo wf e h
    simp [WorkflowAnalyzer.analyzeWorkflowEnv, GitHubClient.getWorkflowRuns, h]
  · intro env cfg repo e h
    simp [WorkflowAnalyzer.analyzeRepository, GitHubClient.getWorkflows, h]
  · intro env cfg now e h
    simp [WorkflowAnalyzer.analyze, GitHubClient.getOrganizationRepositories, h]
  · intro env cfg now l h
    unfold WorkflowAnalyzer.analyze GitHubClient.getOrganizationRepositories
    rw [h]
    exact ⟨_, rfl⟩

/-- Configuration for the aggregator scenarios. -/
def cfgAgg : Config :=
  { failureThreshold := 3, failureRateThreshold := 80, timeWindowDays := 7
  , excludeRepositories := [], safelistWorkflows := [], dryRun := true
  , githubToken := none, organization := "org", maxConcurrentRequests := 5
  , backupDirectory := "backups" }

/-- A workflow descriptor used by the aggregator scenarios. -/
def wfAgg : WorkflowInfo :=
  { name := "w", path := "a/w.yml", state := "active", id := 1 }

/-- An environment where the single repository a exists but its
workflow-list fetch fails. -/
def envWfError : GhEnv :=
  { repos := Except.ok ["a"]
  , workflows := fun _ => Except.error "boom"
  , runs := fun _ _ => Except.ok []
  , issues := fun _ _ => [] }

/-- The report the pass produces in the envWfError scenario. -/
def reportWfError : AnalysisReport :=
  { timestamp := "t", organization := "org", totalRepositories := 0
  , totalWorkflows := 0, failingWorkflows := 0, successRate := 0
  , repositories := [], summary := { totalRuns := 0, successfulRuns := 0, failedRuns := 0 } }

/-- Counterexample to the stated per-unit error behavior: when the
workflow-list fetch for repository a fails, the pass still succeeds, but
repository a does not appear anywhere in the report; it is dropped
entirely rather than appearing with empty metrics. -/
theorem repo_fetch_error_unit_absent :
    WorkflowAnalyzer.analyze envWfError cfgAgg "t" = Except.ok reportWfError ∧
    reportWfError.repositories = [] := by
  exact ⟨by decide, rfl⟩

/-- An environment where the run-history fetch fails for every workflow. -/
def envRunError : GhEnv :=
  { repos := Except.ok ["a"]
  , workflows := fun _ => Except.ok [wfAgg]
  , runs := fun _ _ => Except.error "boom"
  , issues := fun _ _ => [] }

/-- An environment where the organization enumeration itself fails. -/
def envRepoError : GhEnv :=
  { repos := Except.error "org not found"
  , workflows := fun _ => Except.ok []
  , runs := fun _ _ => Except.ok []
  , issues := fun _ _ => [] }

theorem fetch_error_handling_witness :
    WorkflowAnalyzer.analyzeWorkflowEnv envRunError cfgAgg "a" wfAgg =
      WorkflowAnalyzer.analyzeWorkflow cfgAgg "a" wfAgg [] (envRunError.issues "a" wfAgg.path) ∧
    WorkflowAnalyzer.analyzeRepository envWfError cfgAgg "a" =
      { repository := "a", totalWorkflows := 0, failingWorkflows := 0, workflows := [] } ∧
    WorkflowAnalyzer.analyze envRepoError cfgAgg "t" = Except.error "org not found" ∧
    (∃ rep, WorkflowAnalyzer.analyze envRunError cfgAgg "t" = Except.ok rep) :=
  ⟨fetch_error_handling.1 envRunError cfgAgg "a" wfAgg "boom" rfl,
   fetch_error_handling.2.1 envWfError cfgAgg "a" "boom" rfl,
   fetch_error_handling.2.2.1 envRepoError cfgAgg "t" "org not found" rfl,
   fetch_error_handling.2.2.2 envRunError cfgAgg "t" ["a"] rfl⟩

/-- Configuration for the zero-workflow-repository scenario. -/
def cfgSkip : Config :=
  { failureThreshold := 3, failureRateThreshold := 80, timeWindowDays := 7
  , excludeRepositories := [], safelistWorkflows := [], dryRun := true
  , githubToken := none, organization := "orgSkip", maxConcurrentRequests := 5
  , backupDirectory := "backups" }

/-- A workflow descriptor for the repository that does have workflows. -/
def wfSkip : WorkflowInfo :=
  { name := "w", path := "a/w.yml", state := "active", id := 1 }

/-- An environment with one repository reporting zero workflows and one
repository with a single workflow that has no runs. -/
def envSkip : GhEnv :=
  { repos := Except.ok ["emptyrepo", "fullrepo"]
  , workflows := fun r => if r = "fullrepo" then Except.ok [wfSkip] else Except.ok []
  , runs := fun _ _ => Except.ok []
  , issues := fun _ _ => [] }

/-- The report the pass produces in the envSkip scenario: only fullrepo
appears. -/
def reportSkip : AnalysisReport :=
  { timestamp := "t", organization := "orgSkip", totalRepositories := 1
  , totalWorkflows := 1, failingWorkflows := 0, successRate := 0
  , repositories :=
      [{ repository := "fullrepo", totalWorkflows := 1, failingWorkflows := 0
       , workflows :=
           [{ repository := "fullrepo", workflowName := "w", workflowPath := "a/w.yml"
            , workflowId := 1, totalRuns := 0, successfulRuns := 0, failedRuns := 0
            , failureRate := 0, consecutiveFailures := 0, lastRuns := []
            , lastSuccessfulRun := none, shouldDisable := false
            , disableReason := [], issues := [] }] }]
  , summary := { totalRuns := 0, successfulRuns := 0, failedRuns := 0 } }

theorem zero_workflow_repos_absent_witness :
    (∀ r, GitHubClient.getWorkflows (envSkip.workflows r) = [] →
      ∀ ra ∈ reportSkip.repositories, ra.repository ≠ r) ∧
    reportSkip.totalRepositories = reportSkip.repositories.length :=
  zero_workflow_repos_absent envSkip cfgSkip "t" reportSkip (by decide)
